import Mathlib

set_option maxRecDepth 4000

namespace Spark

/-- Dynamically typed JS primitive values, as far as the modelled code distinguishes them. -/
inductive JSVal where
  | str (s : String)
  | num (n : Int)
  | bool (b : Bool)
  | null
deriving DecidableEq, Repr, BEq

/-- A JS object record: association list of field name to value. -/
abbrev JSRec := List (String × JSVal)

/-- JS truthiness of a primitive value. -/
def truthy : JSVal → Bool
  | .str s => s ≠ ""
  | .num n => n ≠ 0
  | .bool b => b
  | .null => false

/-- JS String() conversion for the values that reach it in the modelled code. -/
def jsToString : JSVal → String
  | .str s => s
  | .num n => toString n
  | .bool b => toString b
  | .null => "null"

/-- Transaction direction, the type field of src/types/finance.ts. -/
inductive TransactionType where
  | income
  | expense
deriving DecidableEq, Repr, BEq

/-- Entry of the MCC mapping table (interface MCCMapping in src/unnamed/part_002). -/
structure MCCMapping where
  category : String
  type : TransactionType
deriving DecidableEq, Repr, BEq

/-- Slice 0 of the MCC_RANGES table of src/unnamed/part_002. -/
def MCC_RANGES_0 : List (String × MCCMapping) :=
  [
  ("5411", ⟨"food", .expense⟩),
  ("5412", ⟨"food", .expense⟩),
  ("5422", ⟨"food", .expense⟩),
  ("5441", ⟨"food", .expense⟩),
  ("5451", ⟨"food", .expense⟩),
  ("5462", ⟨"food", .expense⟩),
  ("5499", ⟨"food", .expense⟩),
  ("5812", ⟨"food", .expense⟩),
  ("5813", ⟨"food", .expense⟩),
  ("5814", ⟨"food", .expense⟩),
  ("4011", ⟨"transport", .expense⟩),
  ("4111", ⟨"transport", .expense⟩),
  ("4112", ⟨"transport", .expense⟩),
  ("4121", ⟨"transport", .expense⟩),
  ("4131", ⟨"transport", .expense⟩),
  ("4214", ⟨"transport", .expense⟩),
  ("4411", ⟨"transport", .expense⟩),
  ("4457", ⟨"transport", .expense⟩),
  ("4468", ⟨"transport", .expense⟩),
  ("4511", ⟨"transport", .expense⟩),
  ("4582", ⟨"transport", .expense⟩),
  ("4722", ⟨"transport", .expense⟩),
  ("4784", ⟨"transport", .expense⟩),
  ("4789", ⟨"transport", .expense⟩),
  ("5511", ⟨"transport", .expense⟩),
  ("5521", ⟨"transport", .expense⟩),
  ("5531", ⟨"transport", .expense⟩),
  ("5532", ⟨"transport", .expense⟩),
  ("5533", ⟨"transport", .expense⟩),
  ("5541", ⟨"transport", .expense⟩),
  ("5542", ⟨"transport", .expense⟩),
  ("5551", ⟨"transport", .expense⟩),
  ("5561", ⟨"transport", .expense⟩),
  ("5571", ⟨"transport", .expense⟩),
  ("5592", ⟨"transport", .expense⟩),
  ("5598", ⟨"transport", .expense⟩),
  ("5599", ⟨"transport", .expense⟩),
  ("7511", ⟨"transport", .expense⟩),
  ("7512", ⟨"transport", .expense⟩),
  ("7513", ⟨"transport", .expense⟩),
  ("7519", ⟨"transport", .expense⟩),
  ("7523", ⟨"transport", .expense⟩),
  ("7531", ⟨"transport", .expense⟩),
  ("7534", ⟨"transport", .expense⟩),
  ("7535", ⟨"transport", .expense⟩)
  ]

/-- Slice 1 of the MCC_RANGES table of src/unnamed/part_002. -/
def MCC_RANGES_1 : List (String × MCCMapping) :=
  [
  ("7538", ⟨"transport", .expense⟩),
  ("7542", ⟨"transport", .expense⟩),
  ("7549", ⟨"transport", .expense⟩),
  ("7829", ⟨"entertainment", .expense⟩),
  ("7832", ⟨"entertainment", .expense⟩),
  ("7841", ⟨"entertainment", .expense⟩),
  ("7911", ⟨"entertainment", .expense⟩),
  ("7922", ⟨"entertainment", .expense⟩),
  ("7929", ⟨"entertainment", .expense⟩),
  ("7932", ⟨"entertainment", .expense⟩),
  ("7933", ⟨"entertainment", .expense⟩),
  ("7941", ⟨"entertainment", .expense⟩),
  ("7991", ⟨"entertainment", .expense⟩),
  ("7992", ⟨"entertainment", .expense⟩),
  ("7993", ⟨"entertainment", .expense⟩),
  ("7994", ⟨"entertainment", .expense⟩),
  ("7995", ⟨"entertainment", .expense⟩),
  ("7996", ⟨"entertainment", .expense⟩),
  ("7997", ⟨"entertainment", .expense⟩),
  ("7998", ⟨"entertainment", .expense⟩),
  ("7999", ⟨"entertainment", .expense⟩),
  ("5200", ⟨"shopping", .expense⟩),
  ("5211", ⟨"shopping", .expense⟩),
  ("5231", ⟨"shopping", .expense⟩),
  ("5251", ⟨"shopping", .expense⟩),
  ("5261", ⟨"shopping", .expense⟩),
  ("5271", ⟨"shopping", .expense⟩),
  ("5300", ⟨"shopping", .expense⟩),
  ("5309", ⟨"shopping", .expense⟩),
  ("5310", ⟨"shopping", .expense⟩),
  ("5311", ⟨"shopping", .expense⟩),
  ("5331", ⟨"shopping", .expense⟩),
  ("5399", ⟨"shopping", .expense⟩),
  ("5611", ⟨"shopping", .expense⟩),
  ("5621", ⟨"shopping", .expense⟩),
  ("5631", ⟨"shopping", .expense⟩),
  ("5641", ⟨"shopping", .expense⟩),
  ("5651", ⟨"shopping", .expense⟩),
  ("5655", ⟨"shopping", .expense⟩),
  ("5661", ⟨"shopping", .expense⟩),
  ("5681", ⟨"shopping", .expense⟩),
  ("5691", ⟨"shopping", .expense⟩),
  ("5697", ⟨"shopping", .expense⟩),
  ("5698", ⟨"shopping", .expense⟩),
  ("5699", ⟨"shopping", .expense⟩)
  ]

/-- Slice 2 of the MCC_RANGES table of src/unnamed/part_002. -/
def MCC_RANGES_2 : List (String × MCCMapping) :=
  [
  ("5712", ⟨"shopping", .expense⟩),
  ("5713", ⟨"shopping", .expense⟩),
  ("5714", ⟨"shopping", .expense⟩),
  ("5718", ⟨"shopping", .expense⟩),
  ("5719", ⟨"shopping", .expense⟩),
  ("5722", ⟨"shopping", .expense⟩),
  ("5732", ⟨"shopping", .expense⟩),
  ("5733", ⟨"shopping", .expense⟩),
  ("5734", ⟨"shopping", .expense⟩),
  ("5735", ⟨"shopping", .expense⟩),
  ("5912", ⟨"shopping", .expense⟩),
  ("5921", ⟨"shopping", .expense⟩),
  ("5931", ⟨"shopping", .expense⟩),
  ("5932", ⟨"shopping", .expense⟩),
  ("5933", ⟨"shopping", .expense⟩),
  ("5935", ⟨"shopping", .expense⟩),
  ("5937", ⟨"shopping", .expense⟩),
  ("5940", ⟨"shopping", .expense⟩),
  ("5941", ⟨"shopping", .expense⟩),
  ("5942", ⟨"shopping", .expense⟩),
  ("5943", ⟨"shopping", .expense⟩),
  ("5944", ⟨"shopping", .expense⟩),
  ("5945", ⟨"shopping", .expense⟩),
  ("5946", ⟨"shopping", .expense⟩),
  ("5947", ⟨"shopping", .expense⟩),
  ("5948", ⟨"shopping", .expense⟩),
  ("5949", ⟨"shopping", .expense⟩),
  ("5950", ⟨"shopping", .expense⟩),
  ("5960", ⟨"shopping", .expense⟩),
  ("5961", ⟨"shopping", .expense⟩),
  ("5962", ⟨"shopping", .expense⟩),
  ("5963", ⟨"shopping", .expense⟩),
  ("5964", ⟨"shopping", .expense⟩),
  ("5965", ⟨"shopping", .expense⟩),
  ("5966", ⟨"shopping", .expense⟩),
  ("5967", ⟨"shopping", .expense⟩),
  ("5968", ⟨"shopping", .expense⟩),
  ("5969", ⟨"shopping", .expense⟩),
  ("5970", ⟨"shopping", .expense⟩),
  ("5971", ⟨"shopping", .expense⟩),
  ("5972", ⟨"shopping", .expense⟩),
  ("5973", ⟨"shopping", .expense⟩),
  ("5975", ⟨"shopping", .expense⟩),
  ("5976", ⟨"shopping", .expense⟩),
  ("5977", ⟨"shopping", .expense⟩)
  ]

/-- Slice 3 of the MCC_RANGES table of src/unnamed/part_002. -/
def MCC_RANGES_3 : List (String × MCCMapping) :=
  [
  ("5978", ⟨"shopping", .expense⟩),
  ("5983", ⟨"shopping", .expense⟩),
  ("5992", ⟨"shopping", .expense⟩),
  ("5993", ⟨"shopping", .expense⟩),
  ("5994", ⟨"shopping", .expense⟩),
  ("5995", ⟨"shopping", .expense⟩),
  ("5996", ⟨"shopping", .expense⟩),
  ("5997", ⟨"shopping", .expense⟩),
  ("5998", ⟨"shopping", .expense⟩),
  ("5999", ⟨"shopping", .expense⟩),
  ("5047", ⟨"health", .expense⟩),
  ("5122", ⟨"health", .expense⟩),
  ("8011", ⟨"health", .expense⟩),
  ("8021", ⟨"health", .expense⟩),
  ("8031", ⟨"health", .expense⟩),
  ("8041", ⟨"health", .expense⟩),
  ("8042", ⟨"health", .expense⟩),
  ("8043", ⟨"health", .expense⟩),
  ("8049", ⟨"health", .expense⟩),
  ("8050", ⟨"health", .expense⟩),
  ("8062", ⟨"health", .expense⟩),
  ("8071", ⟨"health", .expense⟩),
  ("8099", ⟨"health", .expense⟩),
  ("4812", ⟨"utilities", .expense⟩),
  ("4813", ⟨"utilities", .expense⟩),
  ("4814", ⟨"utilities", .expense⟩),
  ("4815", ⟨"utilities", .expense⟩),
  ("4816", ⟨"utilities", .expense⟩),
  ("4821", ⟨"utilities", .expense⟩),
  ("4829", ⟨"utilities", .expense⟩),
  ("4899", ⟨"utilities", .expense⟩),
  ("4900", ⟨"utilities", .expense⟩),
  ("8211", ⟨"education", .expense⟩),
  ("8220", ⟨"education", .expense⟩),
  ("8241", ⟨"education", .expense⟩),
  ("8244", ⟨"education", .expense⟩),
  ("8249", ⟨"education", .expense⟩),
  ("8299", ⟨"education", .expense⟩),
  ("6010", ⟨"other", .income⟩),
  ("6011", ⟨"other", .income⟩),
  ("6012", ⟨"other", .income⟩),
  ("6051", ⟨"other", .income⟩),
  ("6211", ⟨"investments", .income⟩),
  ("6300", ⟨"other", .income⟩)
  ]

/-- The MCC_RANGES table of src/unnamed/part_002, entry for entry, assembled from its slices. -/
def MCC_RANGES : List (String × MCCMapping) :=
  MCC_RANGES_0 ++ MCC_RANGES_1 ++ MCC_RANGES_2 ++ MCC_RANGES_3

def padStart4 (s : String) : String :=
  if s.length < 4 then String.mk (List.replicate (4 - s.length) (Char.ofNat 48) ++ s.data) else s

/-- getCategoryFromMCC of src/unnamed/part_002: pad the code to four digits and look it up. -/
def getCategoryFromMCC (mccCode : JSVal) : Option MCCMapping :=
  List.lookup (padStart4 (jsToString mccCode)) MCC_RANGES

/-- JS regex word character class backslash-w: ASCII letters, digits and underscore. -/
def wordChar (c : Char) : Bool :=
  (65 ≤ c.toNat && c.toNat ≤ 90) || (97 ≤ c.toNat && c.toNat ≤ 122) ||
    (48 ≤ c.toNat && c.toNat ≤ 57) || c.toNat = 95

/-- Whether position i of s holds a word character (positions outside the string count as non-word). -/
def wordAt (s : List Char) (i : Nat) : Bool :=
  match s.get? i with
  | some c => wordChar c
  | none => false

/-- Whether kw is a leading subsequence of s, character for character. -/
def charsAt : List Char → List Char → Bool
  | [], _ => true
  | _ :: _, [] => false
  | k :: ks, c :: cs => k = c && charsAt ks cs

/-- Whether kw occurs in s starting at index i. -/
def matchesAt (s kw : List Char) (i : Nat) : Bool :=
  charsAt kw (s.drop i)

/-- JS regex word boundary at position i of s: the two sides disagree on word-ness. -/
def boundaryAt (s : List Char) (i : Nat) : Bool :=
  (if i = 0 then false else wordAt s (i - 1)) != wordAt s i

/-- One keyword of the alternation matches at i with word boundaries on both sides. -/
def keywordHitAt (s kw : List Char) (i : Nat) : Bool :=
  matchesAt s kw i && boundaryAt s i && boundaryAt s (i + kw.length)

/-- Existence of a boundary-delimited occurrence of kw anywhere in s. -/
def testKeyword (s kw : List Char) : Bool :=
  (List.range (s.length + 1)).any (fun i => keywordHitAt s kw i)

/-- The test of a regex of the form word-boundary (k1|...|kn) word-boundary against s. -/
def testKeywords (kws : List String) (s : String) : Bool :=
  kws.any (fun kw => testKeyword s.data kw.data)

/-- JS toLowerCase over the alphabets the keyword lists use: ASCII A-Z and the Cyrillic letters. -/
def toLowerChar (c : Char) : Char :=
  if 65 ≤ c.toNat && c.toNat ≤ 90 then Char.ofNat (c.toNat + 32)
  else if 0x410 ≤ c.toNat && c.toNat ≤ 0x42F then Char.ofNat (c.toNat + 32)
  else if c.toNat = 0x406 then Char.ofNat 0x456
  else if c.toNat = 0x407 then Char.ofNat 0x457
  else if c.toNat = 0x404 then Char.ofNat 0x454
  else if c.toNat = 0x490 then Char.ofNat 0x491
  else c

/-- JS String.toLowerCase applied character by character. -/
def toLowerStr (s : String) : String :=
  String.mk (s.data.map toLowerChar)

/-- Keyword alternation of the corresponding regex literal in autoCategorize (src/unnamed/part_002). -/
def foodKeywords : List String :=
  ["restaurant", "cafe", "coffee", "food", "grocery", "supermarket", "їжа", "продукти", "кафе", "ресторан", "магазин", "silpo", "atb", "novus", "fozzy", "mcdonalds", "kfc", "subway", "starbucks", "пицца", "pizza", "burger"]

/-- Keyword alternation of the corresponding regex literal in autoCategorize (src/unnamed/part_002). -/
def transportKeywords : List String :=
  ["uber", "bolt", "taxi", "таксі", "метро", "metro", "bus", "train", "fuel", "gas", "бензин", "паливо", "parking", "парковка", "uklon", "ukrzal", "wog", "okko", "shell"]

/-- Keyword alternation of the corresponding regex literal in autoCategorize (src/unnamed/part_002). -/
def entertainmentKeywords : List String :=
  ["cinema", "кіно", "movie", "netflix", "spotify", "youtube", "steam", "game", "gaming", "concert", "театр", "theater", "museum", "музей", "multiplex", "imax"]

/-- Keyword alternation of the corresponding regex literal in autoCategorize (src/unnamed/part_002). -/
def shoppingKeywords : List String :=
  ["amazon", "rozetka", "prom", "aliexpress", "ebay", "shop", "store", "mall", "тц", "магазин", "покупка", "purchase", "zara", "h&m", "mango", "reserved", "comfy", "eldorado", "foxtrot"]

/-- Keyword alternation of the corresponding regex literal in autoCategorize (src/unnamed/part_002). -/
def healthKeywords : List String :=
  ["pharmacy", "аптека", "hospital", "лікарня", "doctor", "доктор", "лікар", "medical", "медичний", "clinic", "клініка", "health", "здоров"]

/-- Keyword alternation of the corresponding regex literal in autoCategorize (src/unnamed/part_002). -/
def utilitiesKeywords : List String :=
  ["utility", "комунальні", "electricity", "електрика", "water", "вода", "gas", "газ", "internet", "інтернет", "phone", "телефон", "kyivstar", "vodafone", "lifecell"]

/-- Keyword alternation of the corresponding regex literal in autoCategorize (src/unnamed/part_002). -/
def educationKeywords : List String :=
  ["university", "університет", "school", "школа", "course", "курс", "education", "освіта", "udemy", "coursera", "skillshare"]

/-- Keyword alternation of the corresponding regex literal in autoCategorize (src/unnamed/part_002). -/
def incomeKeywords : List String :=
  ["salary", "зарплата", "income", "дохід", "transfer", "переказ", "refund", "повернення", "cashback", "кешбек"]


/-- The description-analysis cascade of autoCategorize: the eight regex tests in source order,
first match wins, falling through to the final default of other/expense. -/
def categorizeByDescription (description : String) : MCCMapping :=
  let desc := toLowerStr description
  if testKeywords foodKeywords desc then ⟨"food", .expense⟩
  else if testKeywords transportKeywords desc then ⟨"transport", .expense⟩
  else if testKeywords entertainmentKeywords desc then ⟨"entertainment", .expense⟩
  else if testKeywords shoppingKeywords desc then ⟨"shopping", .expense⟩
  else if testKeywords healthKeywords desc then ⟨"health", .expense⟩
  else if testKeywords utilitiesKeywords desc then ⟨"utilities", .expense⟩
  else if testKeywords educationKeywords desc then ⟨"education", .expense⟩
  else if testKeywords incomeKeywords desc then ⟨"salary", .income⟩
  else ⟨"other", .expense⟩

/-- JS truthiness of the optional amount combined with the positivity test: amount && amount > 0. -/
def amountTruthyPos : Option Int → Bool
  | some a => decide (a ≠ 0) && decide (0 < a)
  | none => false

/-- autoCategorize of src/unnamed/part_002: MCC lookup first (when the code is truthy), then the
positive-amount default of other/income, then the keyword cascade when the description is truthy,
then the final default of other/expense. -/
def autoCategorize (mccCode : Option JSVal) (description : Option String)
    (amount : Option Int) : MCCMapping :=
  let fromMcc : Option MCCMapping :=
    match mccCode with
    | some m => if truthy m then getCategoryFromMCC m else none
    | none => none
  match fromMcc with
  | some mapping => mapping
  | none =>
    if amountTruthyPos amount then ⟨"other", .income⟩
    else
      match description with
      | some d => if d ≠ "" then categorizeByDescription d else ⟨"other", .expense⟩
      | none => ⟨"other", .expense⟩


/-- Normalized provider account shape (interface BankAccount in src/src/services/banking/types.ts),
restricted to the fields BankingService.syncConnection reads. -/
structure BankAccount where
  id : String
  name : String
deriving DecidableEq, Repr

/-- Normalized provider transaction shape (interface BankTransaction in
src/src/services/banking/types.ts), restricted to the fields the sync path reads. -/
structure BankTransaction where
  id : String
  accountId : String
  amount : Int
  description : String
  mccCode : Option JSVal
  category : Option String
  type : TransactionType
deriving DecidableEq, Repr

/-- Result record of a connection sync (interface SyncResult in
src/src/services/banking/types.ts). -/
structure SyncResult where
  success : Bool
  accountsSynced : Nat
  transactionsSynced : Nat
  newTransactions : Nat
  errors : List String
  lastSyncAt : String
deriving DecidableEq, Repr

/-- The category backfill in BankingService.getTransactions (src/unnamed/part_002): when the
provider transaction carries no truthy category, run autoCategorize over its MCC code,
description, and signed amount, and fill the category in. -/
def ensureCategory (tx : BankTransaction) : BankTransaction :=
  let hasCategory : Bool := match tx.category with
    | some c => c ≠ ""
    | none => false
  if hasCategory then tx
  else
    let amt : Int := if tx.type = .income then tx.amount else -tx.amount
    let categorization := autoCategorize tx.mccCode (some tx.description) (some amt)
    { tx with category := some categorization.category }

/-- The inner per-transaction loop of BankingService.syncConnection: count every transaction,
and for each whose id is not in the known external-id set, count it as new and invoke the
per-transaction callback (invocations are returned in order). -/
def syncAccountTxs (existingTransactionIds : List String) :
    List BankTransaction → Nat × Nat × List BankTransaction
  | [] => (0, 0, [])
  | tx :: rest =>
    let (ts, nt, calls) := syncAccountTxs existingTransactionIds rest
    if existingTransactionIds.contains tx.id then (ts + 1, nt, calls)
    else (ts + 1, nt + 1, tx :: calls)

/-- Accumulated outcome of the per-account loop of BankingService.syncConnection. -/
structure AccountsLoopResult where
  transactionsSynced : Nat
  newTransactions : Nat
  errors : List String
  callbacks : List BankTransaction
deriving DecidableEq, Repr

/-- The per-account loop of BankingService.syncConnection: fetch each account in order
(the fetch result of provider.getTransactions is given by txsFor), backfill categories as
BankingService.getTransactions does, run the per-transaction loop; a failed fetch appends an
error string and continues with the remaining accounts. -/
def syncAccounts (txsFor : String → Except String (List BankTransaction))
    (existingTransactionIds : List String) :
    List BankAccount → AccountsLoopResult
  | [] => ⟨0, 0, [], []⟩
  | account :: rest =>
    match txsFor account.id with
    | .ok txs =>
      let txs := txs.map ensureCategory
      let (ts, nt, calls) := syncAccountTxs existingTransactionIds txs
      let r := syncAccounts txsFor existingTransactionIds rest
      ⟨ts + r.transactionsSynced, nt + r.newTransactions, r.errors, calls ++ r.callbacks⟩
    | .error msg =>
      let r := syncAccounts txsFor existingTransactionIds rest
      ⟨r.transactionsSynced, r.newTransactions,
        ("Failed to sync account " ++ account.name ++ ": " ++ msg) :: r.errors, r.callbacks⟩

/-- BankingService.syncConnection (src/unnamed/part_002). The network-dependent steps are its
parameters: validate is the outcome of validateConnection (error = a thrown exception, caught by
the outer catch), getAccounts the outcome of this.getAccounts, txsFor the per-account outcome of
provider.getTransactions. Returns the SyncResult and the ordered per-transaction callback
invocations. The model is a total function: the source method catches every exception and always
returns a result record. -/
def syncConnection (validate : Except String Bool)
    (getAccounts : Except String (List BankAccount))
    (txsFor : String → Except String (List BankTransaction))
    (existingTransactionIds : List String) (now : String) :
    SyncResult × List BankTransaction :=
  match validate with
  | .error msg =>
    (⟨false, 0, 0, 0, ["Sync failed: " ++ msg], now⟩, [])
  | .ok isValid =>
    if !isValid then
      (⟨false, 0, 0, 0, ["Connection is no longer valid"], now⟩, [])
    else
      match getAccounts with
      | .error msg =>
        (⟨false, 0, 0, 0, ["Sync failed: " ++ msg], now⟩, [])
      | .ok accounts =>
        let r := syncAccounts txsFor existingTransactionIds accounts
        (⟨r.errors.isEmpty, accounts.length, r.transactionsSynced, r.newTransactions,
          r.errors, now⟩, r.callbacks)

/-- Rate limiter state of a MonobankProvider instance: the single lastRequestTime field
(src/src/services/banking/MonobankProvider.ts). -/
structure LimiterState where
  lastRequestTime : Int
deriving DecidableEq, Repr

/-- MIN_REQUEST_INTERVAL of MonobankProvider: one minute in milliseconds. -/
def MIN_REQUEST_INTERVAL : Int := 60000

/-- Outcome of the rate-limit gate: the request is rejected with a RateLimitError carrying
retryAfter, or it proceeds to the network. -/
inductive RequestOutcome where
  | rejected (retryAfter : Int)
  | proceeded
deriving DecidableEq, Repr

/-- Substring containment, modelling JS String.includes. -/
def strIncludes (s pat : String) : Bool :=
  (List.range (s.data.length + 1)).any (fun i => matchesAt s.data pat.data i)

/-- The endpoint test of the limiter in MonobankProvider.makeRequest. -/
def isStatementEndpoint (endpoint : String) : Bool :=
  strIncludes endpoint "/statement/"

/-- The rate-limit gate at the top of MonobankProvider.makeRequest: a statement-endpoint call
within MIN_REQUEST_INTERVAL of the last recorded request throws RateLimitError with the remaining
cooldown; any call that is not rejected records its own time as lastRequestTime. -/
def makeRequestGate (endpoint : String) (now : Int) (st : LimiterState) :
    RequestOutcome × LimiterState :=
  let timeSinceLastRequest := now - st.lastRequestTime
  if isStatementEndpoint endpoint && timeSinceLastRequest < MIN_REQUEST_INTERVAL then
    (.rejected (MIN_REQUEST_INTERVAL - timeSinceLastRequest), st)
  else
    (.proceeded, ⟨now⟩)

/-- A sequence of requests (endpoint and Date.now time) against one provider instance,
threading the limiter state; returns the outcome of each request in order. -/
def runRequests (st : LimiterState) : List (String × Int) → List RequestOutcome × LimiterState
  | [] => ([], st)
  | (endpoint, now) :: rest =>
    let (o, st1) := makeRequestGate endpoint now st
    let (os, st2) := runRequests st1 rest
    (o :: os, st2)



/-- Mutation kind of a sync-queue item (SyncOperation in src/types/finance.ts). -/
inductive SyncOperation where
  | insert
  | update
  | delete
deriving DecidableEq, Repr

/-- A row of the Dexie syncQueue table (interface SyncQueueItem in src/types/finance.ts).
The synced field keeps its dynamic JS type: addToSyncQueue stores the boolean false and
markAsSynced stores the boolean true, while the index query compares against the number 0. -/
structure SyncQueueItem where
  id : String
  userId : String
  tableName : String
  operation : SyncOperation
  recordId : String
  payload : JSRec
  synced : JSVal
  createdAt : String
  syncedAt : Option String
deriving DecidableEq, Repr

/-- The Dexie syncQueue table contents, in insertion order. -/
abbrev SyncQueue := List SyncQueueItem

/-- Whether a JS value is a valid IndexedDB key: strings and numbers are, booleans and null are
not, so a record whose indexed property holds a boolean has no entry in that index. -/
def isIndexableKey : JSVal → Bool
  | .str _ => true
  | .num _ => true
  | .bool _ => false
  | .null => false

/-- getUnsyncedItems of src/lib/db.ts: db.syncQueue.where(synced).equals(0) — the records whose
synced value is present in the index and equal to the number 0. -/
def getUnsyncedItems (q : SyncQueue) : List SyncQueueItem :=
  q.filter (fun it => isIndexableKey it.synced && it.synced == JSVal.num 0)

/-- markAsSynced of src/lib/db.ts: update the record with the given primary key, setting
synced to the boolean true and syncedAt to the current timestamp. -/
def markAsSynced (q : SyncQueue) (id : String) (now : String) : SyncQueue :=
  q.map (fun it =>
    if it.id = id then { it with synced := JSVal.bool true, syncedAt := some now } else it)

/-- addToSyncQueue of src/lib/db.ts: append a fresh item with a generated id, synced stored as
the boolean false, and the creation timestamp. -/
def addToSyncQueue (q : SyncQueue) (userId tableName : String) (operation : SyncOperation)
    (recordId : String) (payload : JSRec) (id createdAt : String) : SyncQueue :=
  q ++ [⟨id, userId, tableName, operation, recordId, payload, JSVal.bool false, createdAt, none⟩]

/-- SyncManager.getPendingCount (src/src/services/sync/SyncManager.ts): the length of the
getUnsyncedItems result. -/
def getPendingCount (q : SyncQueue) : Nat :=
  (getUnsyncedItems q).length

/-- Queue states reachable through the module API of src/lib/db.ts: the empty table, then any
interleaving of addToSyncQueue and markAsSynced. -/
inductive ReachableQueue : SyncQueue → Prop where
  | nil : ReachableQueue []
  | add (q : SyncQueue) (userId tableName : String) (operation : SyncOperation)
      (recordId : String) (payload : JSRec) (id createdAt : String) :
      ReachableQueue q →
      ReachableQueue (addToSyncQueue q userId tableName operation recordId payload id createdAt)
  | mark (q : SyncQueue) (id now : String) :
      ReachableQueue q → ReachableQueue (markAsSynced q id now)

/-- The tableMapping of SyncManager.syncItem: the allowed target tables, each mapped to its
remote name. -/
def tableMapping (tableName : String) : Option String :=
  List.lookup tableName
    [("transactions", "transactions"), ("accounts", "accounts"),
     ("savings_goals", "savings_goals"), ("budgets", "budgets"),
     ("recurring_transactions", "recurring_transactions"),
     ("user_achievements", "user_achievements"), ("user_stats", "user_stats")]

/-- The camelCase-to-snake_case key rewrite of SyncManager.transformToSnakeCase: every ASCII
uppercase letter is replaced by an underscore followed by its lowercase form. -/
def camelToSnakeChars : List Char → List Char
  | [] => []
  | c :: rest =>
    if 65 ≤ c.toNat && c.toNat ≤ 90 then
      Char.ofNat 95 :: toLowerChar c :: camelToSnakeChars rest
    else c :: camelToSnakeChars rest

/-- String form of the camelCase-to-snake_case key rewrite. -/
def camelToSnake (s : String) : String :=
  String.mk (camelToSnakeChars s.data)

/-- SyncManager.transformToSnakeCase: rebuild the record with every key rewritten to
snake_case, values untouched. -/
def transformToSnakeCase (obj : JSRec) : JSRec :=
  obj.map (fun p => (camelToSnake p.1, p.2))

/-- A write issued against the remote store by SyncManager.syncItem. -/
inductive RemoteWrite where
  | insert (table : String) (payload : JSRec)
  | update (table : String) (recordId : String) (payload : JSRec)
  | delete (table : String) (recordId : String)
deriving DecidableEq, Repr

/-- The payload a remote write carries, when it carries one. -/
def writePayload : RemoteWrite → Option JSRec
  | .insert _ payload => some payload
  | .update _ _ payload => some payload
  | .delete _ _ => none

/-- SyncManager.syncItem up to the remote call: none when the table is unknown (the item is
skipped without error), otherwise the remote write it issues, with the payload passed through
transformToSnakeCase. -/
def syncItemWrite (item : SyncQueueItem) : Option RemoteWrite :=
  match tableMapping item.tableName with
  | none => none
  | some table =>
    match item.operation with
    | .insert => some (.insert table (transformToSnakeCase item.payload))
    | .update => some (.update table item.recordId (transformToSnakeCase item.payload))
    | .delete => some (.delete table item.recordId)

/-- Whether syncItem completes without throwing, given which remote writes succeed: an
unknown table returns early (success), otherwise the issued write must succeed. -/
def itemSyncSucceeds (remoteOk : RemoteWrite → Bool) (item : SyncQueueItem) : Bool :=
  match syncItemWrite item with
  | none => true
  | some w => remoteOk w

/-- The drain loop of SyncManager.sync: process the listed items in order; a successful item is
marked synced in the queue table and counted, a failed one is left untouched and the loop
continues. Returns the final queue table and the synced count. -/
def drainLoop (remoteOk : RemoteWrite → Bool) (now : String) (q : SyncQueue) :
    List SyncQueueItem → SyncQueue × Nat
  | [] => (q, 0)
  | item :: rest =>
    if itemSyncSucceeds remoteOk item then
      let r := drainLoop remoteOk now (markAsSynced q item.id now) rest
      (r.1, r.2 + 1)
    else
      drainLoop remoteOk now q rest

/-- One pass of SyncManager.sync in the online, configured, not-already-syncing state: list the
unsynced items and drain them. -/
def syncPass (remoteOk : RemoteWrite → Bool) (now : String) (q : SyncQueue) : SyncQueue × Nat :=
  drainLoop remoteOk now q (getUnsyncedItems q)

/-- Events SyncManager emits during a sync pass. -/
inductive SyncEvent where
  | start
  | complete (syncedCount : Nat)
deriving DecidableEq, Repr

/-- SyncManager.sync happy path including its event emissions: sync-start, the drain pass, then
sync-complete carrying the synced count of the pass. -/
def syncRun (remoteOk : RemoteWrite → Bool) (now : String) (q : SyncQueue) :
    SyncQueue × Nat × List SyncEvent :=
  let r := syncPass remoteOk now q
  (r.1, r.2, [SyncEvent.start, SyncEvent.complete r.2])

/-- A row of the local transactions table (interface Transaction in src/types/finance.ts),
restricted to the fields addTransaction writes. -/
structure Transaction where
  id : String
  userId : String
  type : TransactionType
  category : String
  amount : Int
  description : String
  date : String
  accountId : Option String
  mccCode : Option String
  bankTransactionId : Option String
  isSynced : Bool
  createdAt : String
deriving DecidableEq, Repr

/-- The caller-supplied part of a new transaction (the Omit type in addTransaction of
src/src/stores/useTransactionsStore.ts). -/
structure TxData where
  userId : String
  type : TransactionType
  category : String
  amount : Int
  description : String
  date : String
  accountId : Option String
  mccCode : Option String
  bankTransactionId : Option String
deriving DecidableEq, Repr

/-- The new transaction object addTransaction builds: the supplied data plus generated id,
creation timestamp, and isSynced set to false. -/
def mkTransaction (d : TxData) (id now : String) : Transaction :=
  ⟨id, d.userId, d.type, d.category, d.amount, d.description, d.date,
    d.accountId, d.mccCode, d.bankTransactionId, false, now⟩

/-- Optional string field as a JS value (undefined modelled as null for payload purposes). -/
def optStr : Option String → JSVal
  | some s => .str s
  | none => .null

/-- The queue payload of a failed transaction insert: the whole camelCase transaction object. -/
def txPayload (t : Transaction) : JSRec :=
  [("userId", .str t.userId),
   ("type", .str (if t.type = .income then "income" else "expense")),
   ("category", .str t.category),
   ("amount", .num t.amount),
   ("description", .str t.description),
   ("date", .str t.date),
   ("accountId", optStr t.accountId),
   ("mccCode", optStr t.mccCode),
   ("bankTransactionId", optStr t.bankTransactionId),
   ("id", .str t.id),
   ("createdAt", .str t.createdAt),
   ("isSynced", .bool t.isSynced)]

/-- The durable local state the modelled store operations touch: the Dexie transactions table
and the sync queue table. -/
structure LocalState where
  transactions : List Transaction
  syncQueue : SyncQueue
deriving DecidableEq, Repr

/-- addTransaction of src/src/stores/useTransactionsStore.ts, in the configured state with a
truthy userId: build the new transaction with isSynced false, add it to the local table, then
attempt the remote insert; on failure enqueue exactly one sync-queue item holding the whole
transaction as payload, on success flip the local isSynced flag to true. -/
def addTransaction (st : LocalState) (d : TxData) (id now : String)
    (remoteInsertFails : Bool) (queueId : String) : LocalState :=
  let t := mkTransaction d id now
  let st1 : LocalState := { st with transactions := st.transactions ++ [t] }
  if remoteInsertFails then
    { st1 with
      syncQueue := addToSyncQueue st1.syncQueue d.userId "transactions" .insert id
        (txPayload t) queueId now }
  else
    { st1 with
      transactions := st1.transactions.map (fun x =>
        if x.id = id then { x with isSynced := true } else x) }

/-- The inverse snake_case-to-camelCase key rewrite. Modelled from the spec: the generic
inbound read transform of the Remote Store Adapter (translating remote field names such as
monthly_limit back to monthlyLimit) is described in the spec but is not present under src as a
generic function — inbound reads map fields by hand — so the conceptual inverse is defined here
from the spec wording: every underscore followed by a lowercase ASCII letter becomes that
letter uppercased. -/
def snakeToCamelChars : List Char → List Char
  | [] => []
  | [c] => [c]
  | c1 :: c2 :: rest =>
    if c1.toNat = 95 && 97 ≤ c2.toNat && c2.toNat ≤ 122 then
      Char.ofNat (c2.toNat - 32) :: snakeToCamelChars rest
    else c1 :: snakeToCamelChars (c2 :: rest)

/-- String form of the snake_case-to-camelCase key rewrite. -/
def snakeToCamel (s : String) : String :=
  String.mk (snakeToCamelChars s.data)

/-- Record form of the inbound key rewrite: every key translated back to camelCase. -/
def transformFromSnakeCase (obj : JSRec) : JSRec :=
  obj.map (fun p => (snakeToCamel p.1, p.2))

/-- ASCII letters and digits: the character set of a camelCase identifier key. -/
def asciiAlphanum (c : Char) : Bool :=
  (65 ≤ c.toNat && c.toNat ≤ 90) || (97 ≤ c.toNat && c.toNat ≤ 122) ||
    (48 ≤ c.toNat && c.toNat ≤ 57)

/-- A camelCase identifier key: every character an ASCII letter or digit (no underscores). -/
def isCamelCaseKey (s : String) : Bool :=
  s.data.all asciiAlphanum

/-- Account type enum of src/types/finance.ts. -/
inductive AccountType where
  | checking
  | savings
  | credit
  | investment
  | cash
deriving DecidableEq, Repr

/-- A row of the remote accounts table, restricted to what the balance trigger touches. -/
structure AccountRow where
  id : String
  type : AccountType
  balance : Int
deriving DecidableEq, Repr

/-- The signed amount of the CASE expression in public.update_account_balance
(src/unnamed/part_001): plus the amount for income, minus for expense, independent of the
account row. -/
def txDelta (t : TransactionType) (amount : Int) : Int :=
  if t = .income then amount else -amount

/-- The INSERT branch of the update_account_balance trigger: add the signed amount to the
linked account balance (no-op when the transaction has no account). -/
def triggerInsert (accounts : List AccountRow) (accountId : Option String)
    (t : TransactionType) (amount : Int) : List AccountRow :=
  match accountId with
  | none => accounts
  | some aid =>
    accounts.map (fun a =>
      if a.id = aid then { a with balance := a.balance + txDelta t amount } else a)

/-- The DELETE branch of the update_account_balance trigger: subtract the signed amount back
out of the linked account balance. -/
def triggerDelete (accounts : List AccountRow) (accountId : Option String)
    (t : TransactionType) (amount : Int) : List AccountRow :=
  match accountId with
  | none => accounts
  | some aid =>
    accounts.map (fun a =>
      if a.id = aid then { a with balance := a.balance - txDelta t amount } else a)

/-- The UPDATE branch of the update_account_balance trigger: reverse the old transaction, then
apply the new one. -/
def triggerUpdate (accounts : List AccountRow)
    (oldAccountId : Option String) (oldType : TransactionType) (oldAmount : Int)
    (newAccountId : Option String) (newType : TransactionType) (newAmount : Int) :
    List AccountRow :=
  triggerInsert (triggerDelete accounts oldAccountId oldType oldAmount)
    newAccountId newType newAmount


/-- C7: autoCategorize is a pure deterministic function with priority order MCC-table lookup
(code 5812 gives food/expense regardless of description and amount), then the positive-amount
default other/income (checked before the keyword cascade), then the ordered keyword classifiers
first-match-first (description gas matches both the transport and the utilities alternation and
yields transport because transport is tested earlier; Uber ride with no code and no amount
yields transport/expense), then the final fallback other/expense. -/
theorem C7_categorization_priority :
    (∀ (description : Option String) (amount : Option Int),
      autoCategorize (some (JSVal.str "5812")) description amount = ⟨"food", .expense⟩) ∧
    (autoCategorize none (some "Uber ride") none = ⟨"transport", .expense⟩) ∧
    (∀ (description : Option String) (a : Int), 0 < a →
      autoCategorize none description (some a) = ⟨"other", .income⟩) ∧
    (autoCategorize none (some "gas") none = ⟨"transport", .expense⟩) ∧
    (autoCategorize none (some "xqzw") none = ⟨"other", .expense⟩) := by
  refine ⟨?_, by decide, ?_, by decide, by decide⟩
  · intro d a
    have h : getCategoryFromMCC (JSVal.str "5812") = some ⟨"food", .expense⟩ := by decide
    simp [autoCategorize, truthy, h]
  · intro d a ha
    have h0 : a ≠ 0 := by omega
    simp [autoCategorize, amountTruthyPos, ha, h0]

/-- C7 witness: the positive-amount clause of the priority theorem applied at amount 5. -/
theorem C7_categorization_priority_witness :
    autoCategorize none none (some 5) = ⟨"other", .income⟩ :=
  C7_categorization_priority.2.2.1 none 5 (by decide)

/-- C6 counterexample: after a statement call at t=100000 and a client-info call at t=150000, a
statement call at t=170000 — 70 seconds after the previous statement call — is still rejected
with retry-after 40000, because every non-rejected request (including the non-statement one)
overwrites the single lastRequestTime. The claim that a statement call made 60 or more seconds
after the previous statement call is never rejected is therefore false. -/
theorem C6_counterexample :
    (runRequests ⟨0⟩
        [("/personal/statement/a/0/1", 100000), ("/personal/client-info", 150000),
         ("/personal/statement/a/0/1", 170000)]).1 =
      [RequestOutcome.proceeded, RequestOutcome.proceeded, RequestOutcome.rejected 40000] ∧
    100000 + 60000 ≤ 170000 := by decide

/-- C6 amended: the limiter rejects only statement-endpoint calls and tracks a single
last-request timestamp per provider instance, but the timestamp is written by every non-rejected
request to any endpoint: a non-statement call is never rejected; a statement call made within 60
seconds of the last recorded request is rejected with a positive retry-after equal to the
remaining cooldown and leaves the timestamp unchanged; a call made 60 or more seconds after the
last recorded request proceeds. -/
theorem C6_rate_limiter_amended :
    (∀ (e : String) (now : Int) (st : LimiterState), isStatementEndpoint e = false →
      makeRequestGate e now st = (.proceeded, ⟨now⟩)) ∧
    (∀ (e : String) (now : Int) (st : LimiterState), isStatementEndpoint e = true →
      now - st.lastRequestTime < 60000 →
      makeRequestGate e now st = (.rejected (60000 - (now - st.lastRequestTime)), st) ∧
        0 < 60000 - (now - st.lastRequestTime)) ∧
    (∀ (e : String) (now : Int) (st : LimiterState), 60000 ≤ now - st.lastRequestTime →
      makeRequestGate e now st = (.proceeded, ⟨now⟩)) := by
  refine ⟨?_, ?_, ?_⟩
  · intro e now st h
    simp [makeRequestGate, h]
  · intro e now st h hlt
    have : (now - st.lastRequestTime < MIN_REQUEST_INTERVAL) := by
      simpa [MIN_REQUEST_INTERVAL] using hlt
    refine ⟨by simp [makeRequestGate, h, MIN_REQUEST_INTERVAL, hlt], by omega⟩
  · intro e now st h
    have : ¬(now - st.lastRequestTime < MIN_REQUEST_INTERVAL) := by
      simp [MIN_REQUEST_INTERVAL]; omega
    simp [makeRequestGate, this]

/-- C6 witness: the rejection clause of the amended limiter theorem at the counterexample
instant, evaluating the retry-after to 40000. -/
theorem C6_rate_limiter_amended_witness :
    makeRequestGate "/personal/statement/a/0/1" 170000 ⟨150000⟩ =
      (RequestOutcome.rejected 40000, ⟨150000⟩) := by
  have h := C6_rate_limiter_amended.2.1 "/personal/statement/a/0/1" 170000 ⟨150000⟩
    (by decide) (by decide)
  simpa using h.1

/-- C8 counterexample: the update_account_balance trigger adjusts a credit account exactly like
any other account — inserting an expense of 50 against a credit account with balance 100 yields
balance 50, not the sign-inverted 150 the claim requires for credit-type accounts. -/
theorem C8_counterexample :
    triggerInsert [⟨"a", AccountType.credit, 100⟩] (some "a") TransactionType.expense 50 =
      [⟨"a", AccountType.credit, 50⟩] ∧
    triggerInsert [⟨"a", AccountType.credit, 100⟩] (some "a") TransactionType.expense 50 ≠
      [⟨"a", AccountType.credit, 150⟩] := by decide

/-- C8 amended: every transaction insert adjusts the linked account balance incrementally by
plus the amount for income and minus the amount for expense, identically for every account
type (no sign inversion for credit accounts), and delete reverses the insert exactly: an
expense of 50 against balance 100 yields 50 and deleting it restores 100. -/
theorem C8_balance_adjustment_amended :
    (∀ (accounts : List AccountRow) (aid : Option String) (t : TransactionType) (amt : Int),
      triggerDelete (triggerInsert accounts aid t amt) aid t amt = accounts) ∧
    (∀ (id : String) (ty : AccountType) (b : Int) (t : TransactionType) (amt : Int),
      triggerInsert [⟨id, ty, b⟩] (some id) t amt = [⟨id, ty, b + txDelta t amt⟩]) ∧
    (triggerInsert [⟨"chk", AccountType.checking, 100⟩] (some "chk")
        TransactionType.expense 50 = [⟨"chk", AccountType.checking, 50⟩]) ∧
    (triggerDelete [⟨"chk", AccountType.checking, 50⟩] (some "chk")
        TransactionType.expense 50 = [⟨"chk", AccountType.checking, 100⟩]) := by
  refine ⟨?_, ?_, by decide, by decide⟩
  · intro accounts aid t amt
    cases aid with
    | none => rfl
    | some a =>
      induction accounts with
      | nil => rfl
      | cons x rest ih =>
        simp only [triggerInsert, triggerDelete, List.map_cons] at *
        by_cases h : x.id = a
        · subst h
          simp [Int.add_sub_cancel, ih]
        · simp [h, ih]
  · intro id ty b t amt
    simp [triggerInsert]

/-- C5: a queue item freshly created by addToSyncQueue is pending (its synced flag is the
boolean false) yet getUnsyncedItems does not list it: the stored boolean is not a valid
IndexedDB index key and the query compares against the number 0, so the listing comes back
empty instead of returning the pending items in creation order. -/
theorem C5_listPending_misses_created_items :
    getUnsyncedItems
        (addToSyncQueue [] "u1" "transactions" SyncOperation.insert "r9" [] "qid9" "t0") = [] ∧
    (addToSyncQueue [] "u1" "transactions" SyncOperation.insert "r9" [] "qid9" "t0").length
      = 1 ∧
    ((addToSyncQueue [] "u1" "transactions" SyncOperation.insert "r9" [] "qid9" "t0").map
      (fun it => it.synced) = [JSVal.bool false]) := by decide


/-- The ensureCategory backfill never changes the transaction id. -/
theorem ensureCategory_id (tx : BankTransaction) : (ensureCategory tx).id = tx.id := by
  unfold ensureCategory
  dsimp only
  split <;> rfl

/-- Closed form of the inner per-transaction loop: every transaction is counted, the unknown
ones are counted as new and returned as the callback invocations in order. -/
theorem syncAccountTxs_spec (ex : List String) (txs : List BankTransaction) :
    syncAccountTxs ex txs =
      (txs.length, (txs.filter (fun tx => !(ex.contains tx.id))).length,
        txs.filter (fun tx => !(ex.contains tx.id))) := by
  induction txs with
  | nil => rfl
  | cons tx rest ih =>
    simp only [syncAccountTxs, ih, List.filter_cons, List.length_cons]
    by_cases h : tx.id ∈ ex
    · simp [h]
    · simp [h]

/-- Closed form of the per-account loop for a single account whose fetch succeeds. -/
theorem syncAccounts_single (f : String → Except String (List BankTransaction))
    (ex : List String) (acct : BankAccount) (txs : List BankTransaction)
    (h : f acct.id = .ok txs) :
    syncAccounts f ex [acct] =
      ⟨txs.length, (txs.filter (fun tx => !(ex.contains tx.id))).length, [],
        (txs.filter (fun tx => !(ex.contains tx.id))).map ensureCategory⟩ := by
  have hfil : (txs.map ensureCategory).filter (fun tx => !(ex.contains tx.id)) =
      (txs.filter (fun tx => !(ex.contains tx.id))).map ensureCategory := by
    rw [List.filter_map]
    congr 1
    apply List.filter_congr
    intro a _
    simp [Function.comp, ensureCategory_id]
  simp only [syncAccounts, h, syncAccountTxs_spec, hfil, List.length_map, List.append_nil,
    Nat.add_zero]

/-- C1: with a valid connection and one account whose fetch succeeds, syncConnection counts
every returned transaction in transactionsSynced, counts exactly the transactions whose id is
outside the known set in newTransactions, and invokes the callback exactly on those (in order);
in particular with known set A and provider transactions A, B only B triggers the callback,
transactionsSynced is 2 and newTransactions is 1. -/
theorem C1_dedup_callback_and_counts :
    (∀ (acct : BankAccount) (ex : List String) (txs : List BankTransaction) (now : String),
      (syncConnection (.ok true) (.ok [acct]) (fun _ => .ok txs) ex now).1.transactionsSynced
          = txs.length ∧
      (syncConnection (.ok true) (.ok [acct]) (fun _ => .ok txs) ex now).1.newTransactions
          = (txs.filter (fun tx => !(ex.contains tx.id))).length ∧
      (syncConnection (.ok true) (.ok [acct]) (fun _ => .ok txs) ex now).2.map
            (fun tx => tx.id)
          = (txs.filter (fun tx => !(ex.contains tx.id))).map (fun tx => tx.id)) ∧
    (syncConnection (.ok true) (.ok [⟨"acc1", "Acc"⟩])
        (fun _ => .ok [⟨"A", "acc1", 100, "d1", none, some "food", .expense⟩,
          ⟨"B", "acc1", 200, "d2", none, some "food", .expense⟩]) ["A"] "t0"
      = (⟨true, 1, 2, 1, [], "t0"⟩,
          [⟨"B", "acc1", 200, "d2", none, some "food", .expense⟩])) := by
  constructor
  · intro acct ex txs now
    have hs := syncAccounts_single (fun _ => .ok txs) ex acct txs rfl
    refine ⟨?_, ?_, ?_⟩ <;>
      simp [syncConnection, hs, List.map_map, Function.comp, ensureCategory_id]
  · decide

/-- C4: syncConnection is modelled as a total function (the source catches every exception and
always returns a result record); its success flag is true exactly when its error list is empty;
and a thrown per-account transaction fetch only prepends an error string for that account,
leaving the counts, callbacks and errors contributed by the remaining accounts unchanged. -/
theorem C4_total_success_iff_isolated_errors :
    (∀ (validate : Except String Bool) (getAccounts : Except String (List BankAccount))
        (txsFor : String → Except String (List BankTransaction))
        (ex : List String) (now : String),
      ((syncConnection validate getAccounts txsFor ex now).1.success = true) ↔
        (syncConnection validate getAccounts txsFor ex now).1.errors = []) ∧
    (∀ (txsFor : String → Except String (List BankTransaction)) (ex : List String)
        (account : BankAccount) (rest : List BankAccount) (msg : String),
      txsFor account.id = .error msg →
      syncAccounts txsFor ex (account :: rest) =
        { syncAccounts txsFor ex rest with
            errors := ("Failed to sync account " ++ account.name ++ ": " ++ msg) ::
              (syncAccounts txsFor ex rest).errors }) := by
  constructor
  · intro v ga f ex now
    cases v with
    | error msg => simp [syncConnection]
    | ok b =>
      cases b with
      | false => simp [syncConnection]
      | true =>
        cases ga with
        | error msg => simp [syncConnection]
        | ok accounts =>
          simp only [syncConnection, Bool.not_true, Bool.false_eq_true, if_false]
          cases h : (syncAccounts f ex accounts).errors <;> simp [List.isEmpty, h]
  · intro f ex account rest msg h
    simp [syncAccounts, h]

/-- C4 witness: with account a1 failing and account a2 succeeding with no transactions, the
loop produces exactly the a1 error string and the empty counts of a2. -/
theorem C4_total_success_iff_isolated_errors_witness :
    syncAccounts (fun aid => if aid = "a1" then Except.error "boom"
        else Except.ok ([] : List BankTransaction)) [] [⟨"a1", "A1"⟩, ⟨"a2", "A2"⟩] =
      ⟨0, 0, ["Failed to sync account A1: boom"], []⟩ := by
  rw [C4_total_success_iff_isolated_errors.2 (fun aid => if aid = "a1" then Except.error "boom"
      else Except.ok ([] : List BankTransaction)) [] ⟨"a1", "A1"⟩ [⟨"a2", "A2"⟩] "boom"
      (by rfl)]
  rfl

/-- An entry whose id differs from the updated one passes through markAsSynced unchanged. -/
theorem markAsSynced_mem_of_ne {q : SyncQueue} {it : SyncQueueItem} (h : it ∈ q) {id : String}
    (hne : it.id ≠ id) (now : String) : it ∈ markAsSynced q id now := by
  unfold markAsSynced
  refine List.mem_map.mpr ⟨it, h, ?_⟩
  simp [hne]

/-- The drain loop counts exactly the items whose syncItem call succeeds. -/
theorem drainLoop_count (ok : RemoteWrite → Bool) (now : String) (q : SyncQueue)
    (items : List SyncQueueItem) :
    (drainLoop ok now q items).2 = (items.filter (fun it => itemSyncSucceeds ok it)).length := by
  induction items generalizing q with
  | nil => rfl
  | cons item rest ih =>
    by_cases h : itemSyncSucceeds ok item
    · simp [drainLoop, h, List.filter_cons, ih]
    · simp [drainLoop, h, List.filter_cons, ih]

/-- A queue entry not targeted by any succeeding item of the pass survives the drain loop
untouched (in particular a failed item stays pending). -/
theorem drainLoop_preserves (ok : RemoteWrite → Bool) (now : String)
    (items : List SyncQueueItem) :
    ∀ (q : SyncQueue) (it : SyncQueueItem), it ∈ q →
      (∀ j ∈ items, itemSyncSucceeds ok j = true → j.id ≠ it.id) →
      it ∈ (drainLoop ok now q items).1 := by
  induction items with
  | nil => intro q it h _; exact h
  | cons j rest ih =>
    intro q it h hno
    by_cases hj : itemSyncSucceeds ok j = true
    · simp only [drainLoop, hj, if_true]
      exact ih _ it (markAsSynced_mem_of_ne h (Ne.symm (hno j (List.mem_cons_self j rest) hj)) now)
        (fun k hk hks => hno k (List.mem_cons_of_mem j hk) hks)
    · simp only [drainLoop, hj, if_false]
      exact ih q it h (fun k hk hks => hno k (List.mem_cons_of_mem j hk) hks)

/-- C3: over any list of pending queue items, the drain loop never aborts: the synced count is
the number of items whose remote write succeeded, every queue entry not touched by a succeeding
item survives unchanged, the completion event carries the synced count of the pass, and in the
concrete two-item pass where item 1 fails and item 2 succeeds, item 2 is marked synced while
item 1 remains pending. -/
theorem C3_drain_loop_resilience :
    (∀ (ok : RemoteWrite → Bool) (now : String) (q : SyncQueue)
        (items : List SyncQueueItem),
      (drainLoop ok now q items).2
        = (items.filter (fun it => itemSyncSucceeds ok it)).length) ∧
    (∀ (ok : RemoteWrite → Bool) (now : String) (q : SyncQueue)
        (items : List SyncQueueItem) (it : SyncQueueItem), it ∈ q →
      (∀ j ∈ items, itemSyncSucceeds ok j = true → j.id ≠ it.id) →
      it ∈ (drainLoop ok now q items).1) ∧
    (∀ (ok : RemoteWrite → Bool) (now : String) (q : SyncQueue),
      (syncRun ok now q).2.2 = [SyncEvent.start, SyncEvent.complete (syncRun ok now q).2.1]) ∧
    (drainLoop
        (fun w => match w with
          | RemoteWrite.insert _ p => !(p == [("id", JSVal.str "r1")])
          | _ => true) "t9"
        [⟨"q1", "u", "transactions", .insert, "r1", [("id", JSVal.str "r1")],
            JSVal.bool false, "t0", none⟩,
         ⟨"q2", "u", "transactions", .insert, "r2", [("id", JSVal.str "r2")],
            JSVal.bool false, "t0", none⟩]
        [⟨"q1", "u", "transactions", .insert, "r1", [("id", JSVal.str "r1")],
            JSVal.bool false, "t0", none⟩,
         ⟨"q2", "u", "transactions", .insert, "r2", [("id", JSVal.str "r2")],
            JSVal.bool false, "t0", none⟩]
      = ([⟨"q1", "u", "transactions", .insert, "r1", [("id", JSVal.str "r1")],
            JSVal.bool false, "t0", none⟩,
          ⟨"q2", "u", "transactions", .insert, "r2", [("id", JSVal.str "r2")],
            JSVal.bool true, "t0", some "t9"⟩], 1)) :=
  ⟨drainLoop_count, fun ok now q items it h1 h2 => drainLoop_preserves ok now items q it h1 h2,
    fun _ _ _ => rfl, by decide⟩

/-- C3 witness: the preservation clause applied to the concrete failing item: it stays in the
queue after a pass in which its own write fails. -/
theorem C3_drain_loop_resilience_witness :
    (⟨"q1", "u", "transactions", .insert, "r1", [("id", JSVal.str "r1")],
        JSVal.bool false, "t0", none⟩ : SyncQueueItem) ∈
      (drainLoop
        (fun w => match w with
          | RemoteWrite.insert _ p => !(p == [("id", JSVal.str "r1")])
          | _ => true) "t9"
        [⟨"q1", "u", "transactions", .insert, "r1", [("id", JSVal.str "r1")],
            JSVal.bool false, "t0", none⟩]
        [⟨"q1", "u", "transactions", .insert, "r1", [("id", JSVal.str "r1")],
            JSVal.bool false, "t0", none⟩]).1 := by
  apply C3_drain_loop_resilience.2.1
  · decide
  · decide


/-- C10: on every queue state reachable through addToSyncQueue and markAsSynced, the
getUnsyncedItems listing is empty and the pending count is zero — a freshly created item
(synced stored as the boolean false, not an IndexedDB-indexable key) is never pending-visible,
contradicting the claim that it is returned until markAsSynced confirms it. -/
theorem C10_pending_items_never_visible :
    ∀ q : SyncQueue, ReachableQueue q → getUnsyncedItems q = [] ∧ getPendingCount q = 0 := by
  intro q h
  have hempty : getUnsyncedItems q = [] := by
    induction h with
    | nil => rfl
    | add q u tb op rid pl id ct hq ih =>
      unfold addToSyncQueue
      unfold getUnsyncedItems at ih ⊢
      rw [List.filter_append, ih]
      simp [List.filter_cons, isIndexableKey]
    | mark q id now hq ih =>
      unfold markAsSynced
      unfold getUnsyncedItems at ih ⊢
      rw [List.filter_map]
      have hall : List.filter
          ((fun it => isIndexableKey it.synced && it.synced == JSVal.num 0) ∘ fun it =>
            if it.id = id then { it with synced := JSVal.bool true, syncedAt := some now }
            else it) q = [] := by
        apply List.filter_eq_nil_iff.mpr
        intro a ha
        by_cases hid : a.id = id
        · simp [Function.comp, hid, isIndexableKey]
        · have := List.filter_eq_nil_iff.mp ih a ha
          simpa [Function.comp, hid] using this
      rw [hall, List.map_nil]
  exact ⟨hempty, by unfold getPendingCount; rw [hempty]; rfl⟩

/-- C10 witness: the invisibility theorem applied to the queue holding exactly one freshly
created item. -/
theorem C10_pending_items_never_visible_witness :
    getUnsyncedItems
        (addToSyncQueue [] "u" "transactions" SyncOperation.insert "r1" [] "qid1" "t0") = [] ∧
    getPendingCount
        (addToSyncQueue [] "u" "transactions" SyncOperation.insert "r1" [] "qid1" "t0") = 0 :=
  C10_pending_items_never_visible _
    (ReachableQueue.add [] "u" "transactions" SyncOperation.insert "r1" [] "qid1" "t0"
      ReachableQueue.nil)

/-- C2: adding a transaction whose remote insert fails persists it locally with isSynced false
and creates exactly one queue item, but a subsequent drain pass with every remote write
succeeding syncs nothing (the queue item, stored with the boolean synced flag, is invisible to
getUnsyncedItems), the pending count reads zero even while the item sits unconfirmed, the queue
item keeps its false flag, and nothing ever flips the transaction isSynced flag to true. -/
theorem C2_offline_add_then_drain_never_confirms :
    ((addTransaction ⟨[], []⟩
        ⟨"u1", .expense, "food", 50, "lunch", "2026-01-01", some "a1", none, none⟩
        "tx1" "t0" true "q1").transactions.map (fun t => t.isSynced) = [false]) ∧
    ((addTransaction ⟨[], []⟩
        ⟨"u1", .expense, "food", 50, "lunch", "2026-01-01", some "a1", none, none⟩
        "tx1" "t0" true "q1").syncQueue.length = 1) ∧
    (getPendingCount (addTransaction ⟨[], []⟩
        ⟨"u1", .expense, "food", 50, "lunch", "2026-01-01", some "a1", none, none⟩
        "tx1" "t0" true "q1").syncQueue = 0) ∧
    (syncPass (fun _ => true) "t1" (addTransaction ⟨[], []⟩
        ⟨"u1", .expense, "food", 50, "lunch", "2026-01-01", some "a1", none, none⟩
        "tx1" "t0" true "q1").syncQueue
      = ((addTransaction ⟨[], []⟩
          ⟨"u1", .expense, "food", 50, "lunch", "2026-01-01", some "a1", none, none⟩
          "tx1" "t0" true "q1").syncQueue, 0)) := by decide

/-- A character built from a valid code point keeps that code point. -/
theorem char_toNat_ofNat_of_lt {n : Nat} (h : n < 55296) : (Char.ofNat n).toNat = n := by
  have hv : n.isValidChar := Or.inl h
  simp [Char.ofNat, hv, Char.ofNatAux, Char.toNat, UInt32.toNat, BitVec.toNat_ofNatLt]

/-- Characters with equal code points are equal. -/
theorem char_eq_of_toNat {a b : Char} (h : a.toNat = b.toNat) : a = b := by
  rw [← Char.ofNat_toNat a, ← Char.ofNat_toNat b, h]

/-- The lowercase image of an ASCII uppercase letter sits 32 code points higher. -/
theorem toLowerChar_upper_toNat {c : Char} (h1 : 65 ≤ c.toNat) (h2 : c.toNat ≤ 90) :
    (toLowerChar c).toNat = c.toNat + 32 := by
  have hcond : (65 ≤ c.toNat && c.toNat ≤ 90) = true := by simp [h1, h2]
  unfold toLowerChar
  rw [if_pos hcond]
  exact char_toNat_ofNat_of_lt (by omega)

/-- A snake-to-camel pass walks over any head character that is not an underscore. -/
theorem snakeToCamelChars_cons_ne {c : Char} (hc : ¬c.toNat = 95) (l : List Char) :
    snakeToCamelChars (c :: l) = c :: snakeToCamelChars l := by
  cases l with
  | nil => rfl
  | cons x xs => simp [snakeToCamelChars, hc]

/-- Round trip on character lists: camel-to-snake followed by snake-to-camel restores any list
of ASCII letters and digits. -/
theorem snake_camel_roundtrip_chars :
    ∀ l : List Char, (∀ c ∈ l, asciiAlphanum c = true) →
      snakeToCamelChars (camelToSnakeChars l) = l := by
  intro l h
  induction l with
  | nil => rfl
  | cons c rest ih =>
    have hc := h c (List.mem_cons_self c rest)
    have hrest := fun x hx => h x (List.mem_cons_of_mem c hx)
    simp only [asciiAlphanum, Bool.or_eq_true, Bool.and_eq_true, decide_eq_true_eq] at hc
    by_cases hu : 65 ≤ c.toNat ∧ c.toNat ≤ 90
    · have hcond : (65 ≤ c.toNat && c.toNat ≤ 90) = true := by simp [hu.1, hu.2]
      have hlow := toLowerChar_upper_toNat hu.1 hu.2
      have h95 : (Char.ofNat 95).toNat = 95 := by decide
      simp only [camelToSnakeChars, hcond, if_true]
      simp only [snakeToCamelChars]
      have hcondB : ((Char.ofNat 95).toNat = 95 && 97 ≤ (toLowerChar c).toNat &&
          (toLowerChar c).toNat ≤ 122 : Bool) = true := by
        simp only [Bool.and_eq_true, decide_eq_true_eq]
        refine ⟨⟨h95, ?_⟩, ?_⟩
        · rw [hlow]; omega
        · rw [hlow]; omega
      rw [if_pos hcondB, ih hrest]
      have hback : Char.ofNat ((toLowerChar c).toNat - 32) = c := by
        rw [hlow]
        have hsub : c.toNat + 32 - 32 = c.toNat := by omega
        rw [hsub, Char.ofNat_toNat]
      rw [hback]
    · have hneB : ¬((65 ≤ c.toNat && c.toNat ≤ 90) = true) := by
        simp only [Bool.and_eq_true, decide_eq_true_eq]
        exact hu
      have h95 : ¬c.toNat = 95 := by omega
      have hstep : camelToSnakeChars (c :: rest) = c :: camelToSnakeChars rest := by
        simp only [camelToSnakeChars]
        rw [if_neg hneB]
      rw [hstep, snakeToCamelChars_cons_ne h95, ih hrest]

/-- Round trip on strings: a camelCase identifier key survives camelToSnake then snakeToCamel. -/
theorem snakeToCamel_camelToSnake {s : String} (h : isCamelCaseKey s = true) :
    snakeToCamel (camelToSnake s) = s := by
  unfold isCamelCaseKey at h
  cases s with
  | mk data =>
    unfold snakeToCamel camelToSnake
    simp only []
    congr 1
    exact snake_camel_roundtrip_chars data (List.all_eq_true.mp h)

/-- Record-level round trip: the inbound transform undoes the outbound transform on every
record whose keys are camelCase identifiers. -/
theorem map_keys_roundtrip : ∀ r : JSRec, (∀ p ∈ r, isCamelCaseKey p.1 = true) →
    transformFromSnakeCase (transformToSnakeCase r) = r := by
  intro r
  induction r with
  | nil => intro _; rfl
  | cons p rest ih =>
    intro h
    unfold transformFromSnakeCase transformToSnakeCase at ih ⊢
    simp only [List.map_cons]
    rw [snakeToCamel_camelToSnake (h p (List.mem_cons_self p rest)),
      ih (fun x hx => h x (List.mem_cons_of_mem p hx))]

/-- C9: for every record whose keys are camelCase identifiers, the outbound camel-to-snake key
transform followed by the inbound snake-to-camel transform restores the record; and every
payload-carrying remote write issued by syncItem at drain time carries exactly the
transformToSnakeCase image of the queued payload. -/
theorem C9_field_mapping_roundtrip_and_uniform :
    (∀ r : JSRec, (∀ p ∈ r, isCamelCaseKey p.1 = true) →
      transformFromSnakeCase (transformToSnakeCase r) = r) ∧
    (∀ (item : SyncQueueItem) (w : RemoteWrite) (payload : JSRec),
      syncItemWrite item = some w → writePayload w = some payload →
      payload = transformToSnakeCase item.payload) := by
  constructor
  · exact map_keys_roundtrip
  · intro item w payload hw hp
    unfold syncItemWrite at hw
    cases htm : tableMapping item.tableName with
    | none => rw [htm] at hw; exact absurd hw (by simp)
    | some table =>
      rw [htm] at hw
      cases hop : item.operation <;> rw [hop] at hw <;>
        simp only [Option.some.injEq] at hw <;> subst hw <;>
        simp [writePayload] at hp <;> exact hp.symm

/-- C9 witness: the round-trip theorem applied at the record with the single key monthlyLimit. -/
theorem C9_field_mapping_roundtrip_and_uniform_witness :
    transformFromSnakeCase (transformToSnakeCase [("monthlyLimit", JSVal.num 5)]) =
      [("monthlyLimit", JSVal.num 5)] :=
  C9_field_mapping_roundtrip_and_uniform.1 [("monthlyLimit", JSVal.num 5)]
    (List.forall_mem_singleton.mpr (by decide))

end Spark
